import Mathlib

/-!
Verification of the SPH basic equations library
(`pysph/sph/basic_equations.py`).

Each Python equation class is embedded as a Lean structure holding its
construction-time scalar parameters, and each `initialize`/`loop`/`post_loop`
method as a pure function taking the structure and the relevant field values
(the array slots the method reads or writes) and returning the structure
together with the updated field values.  All scalars are modelled as exact
rationals; Python float arithmetic on these formulas is the same algebra.
`initialize` is rendered as `init` because `initialize` is reserved in Lean.

For each method that performs divisions, a companion `loopDivisors` function
lists the divisor of every division the method body executes, in source
order, so that claims about zero divisors can be stated.
-/

/-- `SummationDensity`: only the inherited `symmetric` flag as parameter. -/
structure SummationDensity where
  symmetric : Bool
deriving DecidableEq

/-- `SummationDensity.initialize`: `d_rho[d_idx] = 0.0`. -/
def SummationDensity.init (e : SummationDensity) (_d_rho : ℚ) :
    SummationDensity × ℚ :=
  (e, 0)

/-- `SummationDensity.loop`: `d_rho[d_idx] += s_m[s_idx]*WIJ`. -/
def SummationDensity.loop (e : SummationDensity) (d_rho s_m WIJ : ℚ) :
    SummationDensity × ℚ :=
  (e, d_rho + s_m * WIJ)

/-- One full pass for a destination particle: `initialize` once, then one
`loop` call per neighbor, where each neighbor supplies its `(s_m, WIJ)`. -/
def SummationDensity.pass (e : SummationDensity) (d_rho0 : ℚ)
    (neighbors : List (ℚ × ℚ)) : ℚ :=
  neighbors.foldl (fun r p => (e.loop r p.1 p.2).2) (e.init d_rho0).2

/-- `BodyForce` parameters from `__init__`. -/
structure BodyForce where
  fx : ℚ
  fy : ℚ
  fz : ℚ
  symmetric : Bool
deriving DecidableEq

/-- `BodyForce.initialize`: zero the three acceleration slots. -/
def BodyForce.init (e : BodyForce) (_acc : ℚ × ℚ × ℚ) :
    BodyForce × (ℚ × ℚ × ℚ) :=
  (e, (0, 0, 0))

/-- `BodyForce.loop`: `d_au += fx; d_av += fy; d_aw += fz`. -/
def BodyForce.loop (e : BodyForce) (acc : ℚ × ℚ × ℚ) :
    BodyForce × (ℚ × ℚ × ℚ) :=
  (e, (acc.1 + e.fx, acc.2.1 + e.fy, acc.2.2 + e.fz))

/-- `initialize` followed by exactly `N` `loop` calls for one destination. -/
def BodyForce.visits (e : BodyForce) (prior : ℚ × ℚ × ℚ) (N : ℕ) :
    ℚ × ℚ × ℚ :=
  (fun a => (e.loop a).2)^[N] (e.init prior).2

/-- `VelocityGradient2D`: only the inherited `symmetric` flag. -/
structure VelocityGradient2D where
  symmetric : Bool
deriving DecidableEq

/-- The four accumulated tensor components `d_v00, d_v01, d_v10, d_v11`. -/
structure Grad2 where
  v00 : ℚ
  v01 : ℚ
  v10 : ℚ
  v11 : ℚ
deriving DecidableEq

/-- `VelocityGradient2D.initialize`: zero the four tensor slots. -/
def VelocityGradient2D.init (e : VelocityGradient2D) (_g : Grad2) :
    VelocityGradient2D × Grad2 :=
  (e, ⟨0, 0, 0, 0⟩)

/-- `VelocityGradient2D.loop`: `tmp = s_m/s_rho`, then accumulate
`tmp * -VIJ[a] * DWIJ[b]` into the four components. -/
def VelocityGradient2D.loop (e : VelocityGradient2D) (s_m s_rho : ℚ)
    (g : Grad2) (DWIJ VIJ : ℚ × ℚ × ℚ) : VelocityGradient2D × Grad2 :=
  let tmp := s_m / s_rho
  (e, ⟨g.v00 + tmp * -VIJ.1 * DWIJ.1,
       g.v01 + tmp * -VIJ.1 * DWIJ.2.1,
       g.v10 + tmp * -VIJ.2.1 * DWIJ.1,
       g.v11 + tmp * -VIJ.2.1 * DWIJ.2.1⟩)

/-- Divisors of the divisions performed by `VelocityGradient2D.loop`:
the single division `s_m/s_rho` has divisor `s_rho[s_idx]`. -/
def VelocityGradient2D.loopDivisors (_e : VelocityGradient2D)
    (_s_m s_rho : ℚ) : List ℚ :=
  [s_rho]

/-- `IsothermalEOS` parameters; `c02` is stored precomputed. -/
structure IsothermalEOS where
  rho0 : ℚ
  c0 : ℚ
  c02 : ℚ
  symmetric : Bool
deriving DecidableEq

/-- `IsothermalEOS.__init__`: stores `rho0`, `c0` and `c02 = c0 * c0`. -/
def IsothermalEOS.make (rho0 c0 : ℚ) (symmetric : Bool) : IsothermalEOS :=
  { rho0 := rho0, c0 := c0, c02 := c0 * c0, symmetric := symmetric }

/-- `IsothermalEOS.loop`: `d_p[d_idx] = c02 * (d_rho[d_idx] - rho0)`
(overwrites `d_p`, ignoring its prior value). -/
def IsothermalEOS.loop (e : IsothermalEOS) (d_rho _d_p : ℚ) :
    IsothermalEOS × ℚ :=
  (e, e.c02 * (d_rho - e.rho0))

/-- Divisors of the divisions performed by `IsothermalEOS.loop`: the body
`d_p[d_idx] = self.c02 * (d_rho[d_idx] - self.rho0)` performs no division,
so the list is empty. -/
def IsothermalEOS.loopDivisors (_e : IsothermalEOS) (_d_rho _d_p : ℚ) :
    List ℚ :=
  []

/-- `ContinuityEquation`: only the inherited `symmetric` flag. -/
structure ContinuityEquation where
  symmetric : Bool
deriving DecidableEq

/-- `ContinuityEquation.initialize`: `d_arho[d_idx] = 0.0`. -/
def ContinuityEquation.init (e : ContinuityEquation) (_d_arho : ℚ) :
    ContinuityEquation × ℚ :=
  (e, 0)

/-- `ContinuityEquation.loop`: `vijdotdwij = DWIJ·VIJ`;
`d_arho[d_idx] += s_m[s_idx]*vijdotdwij`; if `symmetric`,
`s_arho[s_idx] += -d_m[d_idx]*vijdotdwij`.  Returns the updated
`(d_arho[d_idx], s_arho[s_idx])`. -/
def ContinuityEquation.loop (e : ContinuityEquation)
    (d_arho s_m d_m s_arho : ℚ) (DWIJ VIJ : ℚ × ℚ × ℚ) :
    ContinuityEquation × (ℚ × ℚ) :=
  let vijdotdwij := DWIJ.1 * VIJ.1 + DWIJ.2.1 * VIJ.2.1 + DWIJ.2.2 * VIJ.2.2
  (e, (d_arho + s_m * vijdotdwij,
       if e.symmetric then s_arho + -d_m * vijdotdwij else s_arho))

/-- `MonaghanArtificialViscosity` parameters from `__init__`. -/
structure MonaghanArtificialViscosity where
  alpha : ℚ
  beta : ℚ
  eta : ℚ
  symmetric : Bool
deriving DecidableEq

/-- `MonaghanArtificialViscosity.initialize`: zero the acceleration slots. -/
def MonaghanArtificialViscosity.init (e : MonaghanArtificialViscosity)
    (_acc : ℚ × ℚ × ℚ) : MonaghanArtificialViscosity × (ℚ × ℚ × ℚ) :=
  (e, (0, 0, 0))

/-- The viscosity term `piij` of `MonaghanArtificialViscosity.loop`:
`0` initially, and when `vijdotxij = VIJ·XIJ < 0`,
`piij = (-alpha*cij*muij + beta*muij*muij) * RHOIJ1` with
`cij = 0.5*(d_cs+s_cs)` and
`muij = (HIJ*vijdotxij)/(R2IJ + eta*eta*HIJ*HIJ)`. -/
def MonaghanArtificialViscosity.piij (e : MonaghanArtificialViscosity)
    (d_cs s_cs : ℚ) (VIJ XIJ : ℚ × ℚ × ℚ) (HIJ R2IJ RHOIJ1 : ℚ) : ℚ :=
  let vijdotxij := VIJ.1 * XIJ.1 + VIJ.2.1 * XIJ.2.1 + VIJ.2.2 * XIJ.2.2
  if vijdotxij < 0 then
    let cij := 0.5 * (d_cs + s_cs)
    let muij := (HIJ * vijdotxij) / (R2IJ + e.eta * e.eta * HIJ * HIJ)
    (-e.alpha * cij * muij + e.beta * muij * muij) * RHOIJ1
  else 0

/-- `MonaghanArtificialViscosity.loop`: computes `rhoi21`, `rhoj21`
(never used afterwards), the switch term `piij`, and accumulates
`-s_m[s_idx] * piij * DWIJ[k]` into `(d_au, d_av, d_aw)`. -/
def MonaghanArtificialViscosity.loop (e : MonaghanArtificialViscosity)
    (d_rho s_rho d_cs s_cs s_m : ℚ) (acc : ℚ × ℚ × ℚ)
    (VIJ XIJ : ℚ × ℚ × ℚ) (HIJ R2IJ RHOIJ1 : ℚ) (DWIJ : ℚ × ℚ × ℚ) :
    MonaghanArtificialViscosity × (ℚ × ℚ × ℚ) :=
  let _rhoi21 := 1 / (d_rho * d_rho)
  let _rhoj21 := 1 / (s_rho * s_rho)
  let p := e.piij d_cs s_cs VIJ XIJ HIJ R2IJ RHOIJ1
  (e, (acc.1 + -s_m * p * DWIJ.1,
       acc.2.1 + -s_m * p * DWIJ.2.1,
       acc.2.2 + -s_m * p * DWIJ.2.2))

/-- Divisors of the divisions performed by
`MonaghanArtificialViscosity.loop`, in source order:
`d_rho*d_rho` (for `rhoi21`), `s_rho*s_rho` (for `rhoj21`), and, when the
branch `vijdotxij < 0` is taken, `R2IJ + eta*eta*HIJ*HIJ` (for `muij`). -/
def MonaghanArtificialViscosity.loopDivisors
    (e : MonaghanArtificialViscosity) (d_rho s_rho : ℚ)
    (VIJ XIJ : ℚ × ℚ × ℚ) (HIJ R2IJ : ℚ) : List ℚ :=
  let vijdotxij := VIJ.1 * XIJ.1 + VIJ.2.1 * XIJ.2.1 + VIJ.2.2 * XIJ.2.2
  [d_rho * d_rho, s_rho * s_rho] ++
    (if vijdotxij < 0 then [R2IJ + e.eta * e.eta * HIJ * HIJ] else [])

/-- `XSPHCorrection` parameters from `__init__`. -/
structure XSPHCorrection where
  eps : ℚ
  symmetric : Bool
deriving DecidableEq

/-- `XSPHCorrection.initialize`: zero `(d_ax, d_ay, d_az)`. -/
def XSPHCorrection.init (e : XSPHCorrection) (_acc : ℚ × ℚ × ℚ) :
    XSPHCorrection × (ℚ × ℚ × ℚ) :=
  (e, (0, 0, 0))

/-- `XSPHCorrection.loop`: `tmp = -eps*s_m*WIJ*RHOIJ1`, per-axis
`v_k = tmp*VIJ[k]` added to the destination accumulators; if `symmetric`,
`v_k * (-d_m/s_m)` added to the source accumulators.  Returns the updated
destination and source accumulator triples. -/
def XSPHCorrection.loop (e : XSPHCorrection) (s_m d_m : ℚ)
    (dacc sacc : ℚ × ℚ × ℚ) (WIJ RHOIJ1 : ℚ) (VIJ : ℚ × ℚ × ℚ) :
    XSPHCorrection × ((ℚ × ℚ × ℚ) × (ℚ × ℚ × ℚ)) :=
  let tmp := -e.eps * s_m * WIJ * RHOIJ1
  let v1 := tmp * VIJ.1
  let v2 := tmp * VIJ.2.1
  let v3 := tmp * VIJ.2.2
  let dacc2 := (dacc.1 + v1, dacc.2.1 + v2, dacc.2.2 + v3)
  let factor := -d_m / s_m
  let sacc2 :=
    if e.symmetric then
      (sacc.1 + v1 * factor, sacc.2.1 + v2 * factor, sacc.2.2 + v3 * factor)
    else sacc
  (e, (dacc2, sacc2))

/-- `XSPHCorrection.post_loop`: add the destination's own velocity
`(d_u, d_v, d_w)` into the accumulators. -/
def XSPHCorrection.post_loop (e : XSPHCorrection) (acc : ℚ × ℚ × ℚ)
    (d_u d_v d_w : ℚ) : XSPHCorrection × (ℚ × ℚ × ℚ) :=
  (e, (acc.1 + d_u, acc.2.1 + d_v, acc.2.2 + d_w))

/-- Folding `SummationDensity.loop` over a list adds `Σ s_m*WIJ`. -/
lemma SummationDensity.foldl_loop (e : SummationDensity)
    (ns : List (ℚ × ℚ)) (a : ℚ) :
    ns.foldl (fun r p => (e.loop r p.1 p.2).2) a =
      a + (ns.map fun p => p.1 * p.2).sum := by
  induction ns generalizing a with
  | nil => simp
  | cons hd tl ih =>
    rw [List.foldl_cons, ih]
    simp only [SummationDensity.loop, List.map_cons, List.sum_cons]
    ring

/-- Claim C1: for `SummationDensity`, `initialize` followed by one `loop`
call per neighbor with given `(s_m, WIJ)` leaves `d_rho` equal to the exact
sum `Σ s_m*WIJ` over the neighbors; with zero neighbors, `d_rho = 0` after
`initialize` alone. -/
theorem summationDensity_pass_eq_sum (e : SummationDensity) (d_rho0 : ℚ)
    (neighbors : List (ℚ × ℚ)) :
    e.pass d_rho0 neighbors = (neighbors.map fun p => p.1 * p.2).sum ∧
      e.pass d_rho0 [] = 0 := by
  constructor
  · simp [SummationDensity.pass, SummationDensity.foldl_loop,
      SummationDensity.init]
  · simp [SummationDensity.pass, SummationDensity.init]

/-- Claim C2: for `MonaghanArtificialViscosity.loop` with `VIJ·XIJ ≥ 0`
(separating particles), `piij = 0` exactly and the accumulators
`(d_au, d_av, d_aw)` are unchanged, for all parameter values. -/
theorem monaghan_separating_zero (e : MonaghanArtificialViscosity)
    (d_rho s_rho d_cs s_cs s_m : ℚ) (acc : ℚ × ℚ × ℚ)
    (VIJ XIJ : ℚ × ℚ × ℚ) (HIJ R2IJ RHOIJ1 : ℚ) (DWIJ : ℚ × ℚ × ℚ)
    (h : 0 ≤ VIJ.1 * XIJ.1 + VIJ.2.1 * XIJ.2.1 + VIJ.2.2 * XIJ.2.2) :
    e.piij d_cs s_cs VIJ XIJ HIJ R2IJ RHOIJ1 = 0 ∧
      (e.loop d_rho s_rho d_cs s_cs s_m acc VIJ XIJ HIJ R2IJ RHOIJ1
        DWIJ).2 = acc := by
  have hp : e.piij d_cs s_cs VIJ XIJ HIJ R2IJ RHOIJ1 = 0 := by
    unfold MonaghanArtificialViscosity.piij
    rw [if_neg (not_lt.mpr h)]
  refine ⟨hp, ?_⟩
  simp [MonaghanArtificialViscosity.loop, hp]

/-- Witness for C2 at a concrete separating configuration. -/
theorem monaghan_separating_zero_witness :
    (⟨1, 1, 1/10, false⟩ : MonaghanArtificialViscosity).piij 1 1
        (1, 0, 0) (1, 0, 0) 1 1 1 = 0 ∧
      ((⟨1, 1, 1/10, false⟩ : MonaghanArtificialViscosity).loop 2 3 1 1 1
        (5, 6, 7) (1, 0, 0) (1, 0, 0) 1 1 1 (1, 1, 1)).2 = (5, 6, 7) :=
  monaghan_separating_zero ⟨1, 1, 1/10, false⟩ 2 3 1 1 1 (5, 6, 7)
    (1, 0, 0) (1, 0, 0) 1 1 1 (1, 1, 1) (by norm_num)

/-- Claim C3: for `ContinuityEquation` with `symmetric = true`, distinct
destination and source slots, equal masses `d_m = s_m` and both
accumulators `0` before the call, one `loop` call leaves
`d_arho[i] = -s_arho[j]`. -/
theorem continuity_antisymmetric (e : ContinuityEquation)
    (s_m d_m : ℚ) (DWIJ VIJ : ℚ × ℚ × ℚ)
    (hsym : e.symmetric = true) (hm : d_m = s_m) :
    (e.loop 0 s_m d_m 0 DWIJ VIJ).2.1 =
      -(e.loop 0 s_m d_m 0 DWIJ VIJ).2.2 := by
  simp only [ContinuityEquation.loop, hsym, if_true, hm]
  ring

/-- Witness for C3 at concrete equal-mass inputs. -/
theorem continuity_antisymmetric_witness :
    ((⟨true⟩ : ContinuityEquation).loop 0 2 2 0 (1, 2, 3) (4, 5, 6)).2.1 =
      -((⟨true⟩ : ContinuityEquation).loop 0 2 2 0 (1, 2, 3) (4, 5, 6)).2.2 :=
  continuity_antisymmetric ⟨true⟩ 2 2 (1, 2, 3) (4, 5, 6) rfl rfl

/-- Claim C4: for `BodyForce`, `initialize` followed by exactly `N` `loop`
calls leaves the accumulators at `(N*fx, N*fy, N*fz)`. -/
theorem bodyForce_visits_linear (e : BodyForce) (prior : ℚ × ℚ × ℚ)
    (N : ℕ) :
    e.visits prior N = ((N : ℚ) * e.fx, (N : ℚ) * e.fy, (N : ℚ) * e.fz) := by
  induction N with
  | zero => simp [BodyForce.visits, BodyForce.init]
  | succ n ih =>
    have hstep : e.visits prior (n + 1) = (e.loop (e.visits prior n)).2 := by
      simp [BodyForce.visits, Function.iterate_succ_apply']
    rw [hstep, ih]
    simp only [BodyForce.loop, Prod.mk.injEq]
    push_cast
    refine ⟨by ring, by ring, by ring⟩

/-- Claim C5: every `IsothermalEOS.loop` call sets
`d_p = c0^2 * (d_rho - rho0)`; in particular `d_rho = rho0` gives
`d_p = 0`, independent of `c0`. -/
theorem isothermalEOS_loop_value (rho0 c0 : ℚ) (symmetric : Bool)
    (d_rho d_p : ℚ) :
    ((IsothermalEOS.make rho0 c0 symmetric).loop d_rho d_p).2 =
        c0 ^ 2 * (d_rho - rho0) ∧
      ((IsothermalEOS.make rho0 c0 symmetric).loop rho0 d_p).2 = 0 := by
  refine ⟨?_, ?_⟩
  · simp only [IsothermalEOS.make, IsothermalEOS.loop]
    ring
  · simp [IsothermalEOS.make, IsothermalEOS.loop]

/-- Claim C6: the four tensor components accumulated by
`VelocityGradient2D.loop` do not depend on the third components of `VIJ`
and `DWIJ`: calls differing only there give identical updates. -/
theorem velocityGradient2D_ignores_third (e : VelocityGradient2D)
    (s_m s_rho : ℚ) (g : Grad2) (w0 w1 w2 w2' v0 v1 v2 v2' : ℚ) :
    (e.loop s_m s_rho g (w0, w1, w2) (v0, v1, v2)).2 =
      (e.loop s_m s_rho g (w0, w1, w2') (v0, v1, v2')).2 := rfl

/-- Counterexample to claim C7 as stated: at zero density,
`IsothermalEOS.loop` performs no division at all — its divisor list is
empty, so it contains no zero divisor. -/
theorem isothermalEOS_zero_density_no_division :
    (0 : ℚ) ∉ (IsothermalEOS.make 1000 1 false).loopDivisors 0 0 := by
  simp [IsothermalEOS.loopDivisors]

/-- Claim C7 (amended): zero density makes a divisor zero in the `loop`
bodies of `VelocityGradient2D` (divisor `s_rho`) and
`MonaghanArtificialViscosity` (divisors `d_rho*d_rho`, `s_rho*s_rho`),
while `IsothermalEOS.loop` performs no division at all. -/
theorem zero_density_zero_divisor (eVG : VelocityGradient2D) (s_m : ℚ)
    (eMV : MonaghanArtificialViscosity) (rho : ℚ) (VIJ XIJ : ℚ × ℚ × ℚ)
    (HIJ R2IJ : ℚ) (eIS : IsothermalEOS) (d_rho d_p : ℚ) :
    (0 : ℚ) ∈ eVG.loopDivisors s_m 0 ∧
      (0 : ℚ) ∈ eMV.loopDivisors 0 rho VIJ XIJ HIJ R2IJ ∧
      (0 : ℚ) ∈ eMV.loopDivisors rho 0 VIJ XIJ HIJ R2IJ ∧
      eIS.loopDivisors d_rho d_p = [] := by
  refine ⟨?_, ?_, ?_, rfl⟩
  · simp [VelocityGradient2D.loopDivisors]
  · simp [MonaghanArtificialViscosity.loopDivisors]
  · simp [MonaghanArtificialViscosity.loopDivisors]

/-- Claim C8: `XSPHCorrection.initialize` is idempotent — two successive
calls with no intervening `loop` leave the accumulators at `0` after each
call. -/
theorem xsph_init_idempotent (e : XSPHCorrection) (acc : ℚ × ℚ × ℚ) :
    (e.init acc).2 = (0, 0, 0) ∧ (e.init (e.init acc).2).2 = (0, 0, 0) :=
  ⟨rfl, rfl⟩

/-- Claim C9: for every equation and every `initialize`/`loop`/`post_loop`
stage, the construction-time parameters are unchanged by the call. -/
theorem equation_params_immutable :
    (∀ (e : SummationDensity) (r : ℚ), (e.init r).1 = e) ∧
    (∀ (e : SummationDensity) (r m w : ℚ), (e.loop r m w).1 = e) ∧
    (∀ (e : BodyForce) (a : ℚ × ℚ × ℚ), (e.init a).1 = e) ∧
    (∀ (e : BodyForce) (a : ℚ × ℚ × ℚ), (e.loop a).1 = e) ∧
    (∀ (e : VelocityGradient2D) (g : Grad2), (e.init g).1 = e) ∧
    (∀ (e : VelocityGradient2D) (m r : ℚ) (g : Grad2) (dw vw : ℚ × ℚ × ℚ),
      (e.loop m r g dw vw).1 = e) ∧
    (∀ (e : IsothermalEOS) (r p : ℚ), (e.loop r p).1 = e) ∧
    (∀ (e : ContinuityEquation) (r : ℚ), (e.init r).1 = e) ∧
    (∀ (e : ContinuityEquation) (a m dm sa : ℚ) (dw vw : ℚ × ℚ × ℚ),
      (e.loop a m dm sa dw vw).1 = e) ∧
    (∀ (e : MonaghanArtificialViscosity) (a : ℚ × ℚ × ℚ),
      (e.init a).1 = e) ∧
    (∀ (e : MonaghanArtificialViscosity) (dr sr dc sc m : ℚ)
      (acc vij xij : ℚ × ℚ × ℚ) (hh r2 rh : ℚ) (dw : ℚ × ℚ × ℚ),
      (e.loop dr sr dc sc m acc vij xij hh r2 rh dw).1 = e) ∧
    (∀ (e : XSPHCorrection) (a : ℚ × ℚ × ℚ), (e.init a).1 = e) ∧
    (∀ (e : XSPHCorrection) (sm dm : ℚ) (da sa : ℚ × ℚ × ℚ) (w rh : ℚ)
      (vij : ℚ × ℚ × ℚ), (e.loop sm dm da sa w rh vij).1 = e) ∧
    (∀ (e : XSPHCorrection) (a : ℚ × ℚ × ℚ) (u v w : ℚ),
      (e.post_loop a u v w).1 = e) := by
  refine ⟨?_, ?_, ?_, ?_, ?_, ?_, ?_, ?_, ?_, ?_, ?_, ?_, ?_, ?_⟩ <;>
    intros <;> rfl

/-- Claim C10: the contributions `MonaghanArtificialViscosity.loop`
accumulates do not depend on the (nonzero) densities `d_rho`, `s_rho`:
the computed `rhoi21`, `rhoj21` are never used in the update. -/
theorem monaghan_loop_independent_of_density
    (e : MonaghanArtificialViscosity)
    (d_rho s_rho d_rho' s_rho' d_cs s_cs s_m : ℚ) (acc : ℚ × ℚ × ℚ)
    (VIJ XIJ : ℚ × ℚ × ℚ) (HIJ R2IJ RHOIJ1 : ℚ) (DWIJ : ℚ × ℚ × ℚ)
    (h1 : d_rho ≠ 0) (h2 : s_rho ≠ 0) (h3 : d_rho' ≠ 0) (h4 : s_rho' ≠ 0) :
    (e.loop d_rho s_rho d_cs s_cs s_m acc VIJ XIJ HIJ R2IJ RHOIJ1 DWIJ).2 =
      (e.loop d_rho' s_rho' d_cs s_cs s_m acc VIJ XIJ HIJ R2IJ RHOIJ1
        DWIJ).2 := rfl

/-- Witness for C10 at concrete nonzero densities. -/
theorem monaghan_loop_independent_of_density_witness :
    ((⟨1, 1, 1/10, false⟩ : MonaghanArtificialViscosity).loop 2 3 1 1 1
        (0, 0, 0) (1, 0, 0) (-1, 0, 0) 1 1 1 (1, 1, 1)).2 =
      ((⟨1, 1, 1/10, false⟩ : MonaghanArtificialViscosity).loop 5 7 1 1 1
        (0, 0, 0) (1, 0, 0) (-1, 0, 0) 1 1 1 (1, 1, 1)).2 :=
  monaghan_loop_independent_of_density ⟨1, 1, 1/10, false⟩ 2 3 5 7 1 1 1
    (0, 0, 0) (1, 0, 0) (-1, 0, 0) 1 1 1 (1, 1, 1)
    (by norm_num) (by norm_num) (by norm_num) (by norm_num)
